import Mathlib

/-!
Verification of the request-orchestration behavior of `src/server.py`
(a FastAPI proxy that forwards questions to a hosted assistant API).

The `/ask` handler is shallowly embedded as a pure function `ask` over:
  * a request body (`ReqBody`) of JSON-like values (`JVal`), mirroring
    `data.get("question", "")` / `data.get("thread_id")` and Python
    truthiness / `str.strip()` semantics;
  * an environment (`Env`) acting as a deterministic test double for the
    upstream assistant client (`client.beta.threads.*`), giving the id of a
    freshly created thread, the run id, the status returned by run creation,
    the status returned by each successive run retrieval, the message list
    (most recent first) and whether the analytics capture raises;
  * a fuel bound for the polling loop, which in the source is unbounded
    (`while run.status in ["queued", "in_progress"]`); `ask` returns `none`
    when the loop has not terminated within the given fuel, and termination
    for some fuel is proved equivalent to some observed status leaving the
    non-terminal set.

Besides the HTTP response, `ask` returns the trace of upstream and
analytics calls made (`Event`), so that claims about which calls are or are
not made (thread creation, single run creation, capture attempts) are
statements about the trace.

The slowapi rate limiter behind `@limiter.limit("10/minute;60/hour")` is an
external library whose code is not part of the repository; it is modelled
from the spec (see `recentCount` below).
-/

namespace Portfolio

/-- JSON-like values, as needed by the `/ask` request body: the handler reads
`question` and `thread_id` out of the parsed JSON object. -/
inductive JVal where
  | jstr (s : String)
  | jnull
  | jnum (n : Int)
  | jbool (b : Bool)
deriving DecidableEq, Repr

/-- Python truthiness of a JSON value, embedding `if not thread_id:` from
`server.py` line 103: empty string, `null`, `0` and `false` are falsy. -/
def JVal.truthy : JVal → Bool
  | .jstr s => !(s == "")
  | .jnull => false
  | .jnum n => !(n == 0)
  | .jbool b => b

/-- Truthiness of `data.get("thread_id")`: a missing key yields Python
`None`, which is falsy. -/
def truthyOpt : Option JVal → Bool
  | none => false
  | some v => v.truthy

/-- Python exceptions that the embedded handler can raise uncaught. -/
inductive PyError where
  | attributeError
  | indexError
  | captureError
deriving DecidableEq, Repr

/-- One message of the thread, as seen through `messages.data[i]`: a role and
the list of text values of its content parts (`content[j].text.value`). -/
structure Message where
  role : String
  content : List String
deriving DecidableEq, Repr

/-- The parsed JSON body of a POST `/ask` request. `none` means the key is
absent from the JSON object. -/
structure ReqBody where
  question : Option JVal
  thread_id : Option JVal
deriving DecidableEq, Repr

/-- The deterministic test double for the upstream assistant client, plus the
request-scoped data the handler reads: `newThreadId` is the id returned by
`client.beta.threads.create()`, `createRunStatus` the status field of the run
returned by `runs.create`, `getRunStatus k` the status returned by the k-th
`runs.retrieve` call, `messages` the `messages.list(...).data` list (most
recent first), `clientHost` the `request.client.host` used as analytics
distinct id, and `captureRaises` whether `posthog.capture` raises. -/
structure Env where
  newThreadId : String
  runId : String
  assistantId : String
  clientHost : String
  createRunStatus : String
  getRunStatus : Nat → String
  messages : List Message
  captureRaises : Bool

/-- Trace events: the upstream assistant-client calls and the analytics
capture attempt that the handler can make, with the arguments it passes. -/
inductive Event where
  | createThread
  | appendMessage (tid : JVal) (role content : String)
  | createRun (tid : JVal) (assistantId : String)
  | getRun (tid : JVal) (runId : String)
  | listMessages (tid : JVal)
  | analyticsCapture (distinctId eventName : String)
deriving DecidableEq, Repr

/-- The handler outcome: an HTTP response with status code and JSON object
body, or an uncaught Python exception. -/
inductive HttpResp where
  | resp (status : Nat) (body : List (String × JVal))
  | uncaught (e : PyError)
deriving DecidableEq, Repr

/-- The ASCII whitespace characters stripped by Python `str.strip()`:
space, tab, newline, carriage return, vertical tab and form feed. -/
def isPySpace (c : Char) : Bool :=
  c == ' ' || c == '\t' || c == '\n' || c == '\r' || c == '\x0b' || c == '\x0c'

/-- Python `str.strip()` with no arguments: remove leading and trailing
whitespace characters. -/
def pyStrip (s : String) : String :=
  ⟨((s.data.dropWhile isPySpace).reverse.dropWhile isPySpace).reverse⟩

/-- Embeds `question = data.get("question", "").strip()` (line 94): a missing
key defaults to the empty string; a string value is stripped of surrounding
whitespace; calling `.strip()` on a non-string value (e.g. `null`) raises
`AttributeError`. -/
def getQuestion (b : ReqBody) : Except PyError String :=
  match b.question with
  | none => .ok ""
  | some (.jstr s) => .ok (pyStrip s)
  | some _ => .error .attributeError

/-- The loop guard of line 124: `run.status in ["queued", "in_progress"]`. -/
def nonTerminal (s : String) : Bool :=
  (["queued", "in_progress"] : List String).contains s

/-- The sequence of run statuses observed by the handler: index 0 is the
status of the run returned by `runs.create`, index k+1 the status returned
by the k-th `runs.retrieve` call. -/
def statusSeq (env : Env) : Nat → String
  | 0 => env.createRunStatus
  | k + 1 => env.getRunStatus k

/-- The polling loop of lines 124-129, with explicit fuel: while the current
status is non-terminal, fetch the run again (`runs.retrieve`); on exit,
return the terminal status together with the number of retrieve calls made.
`none` means the loop did not exit within `fuel` iterations (the source loop
is unbounded). `k` counts the retrieve calls already made. -/
def poll (env : Env) (st : String) (k : Nat) : Nat → Option (String × Nat)
  | 0 => if nonTerminal st then none else some (st, k)
  | fuel + 1 =>
    if nonTerminal st then poll env (env.getRunStatus k) (k + 1) fuel
    else some (st, k)

/-- The thread id the handler ends up using (lines 102-108): the supplied
value when it is truthy, otherwise the id of a freshly created thread. -/
def usedThreadId (env : Env) (b : ReqBody) : JVal :=
  if truthyOpt b.thread_id then b.thread_id.getD .jnull else .jstr env.newThreadId

/-- Embeds `messages.data[0].content[0].text.value` (line 134): indexing an
empty list raises `IndexError`. No role filtering is performed. -/
def extractAnswer (msgs : List Message) : Except PyError String :=
  match msgs with
  | [] => .error .indexError
  | m :: _ =>
    match m.content with
    | [] => .error .indexError
    | c :: _ => .ok c

/-- The body of the `try: posthog.capture(...) except: ...` block: the capture
either succeeds or raises, according to the environment. -/
def tryCapture (env : Env) : Except PyError Unit :=
  if env.captureRaises then .error .captureError else .ok ()

/-- The rate-limit message of `custom_rate_limit_handler` (lines 39-46). -/
def rateLimitMsg : String :=
  "Too many requests. Please slow down — ShadowClone AI needs a breather 🤖💨"

/-- The `/ask` handler of lines 90-157, embedded step by step: read and strip
the question (400 on blank), create or reuse the thread, append the user
message, create the run, poll until a terminal status, then either list the
messages and answer 200, or attempt the analytics capture (exceptions
swallowed) and answer 500. Returns the response together with the trace of
upstream and analytics calls, or `none` if the polling loop did not
terminate within `fuel` iterations. -/
def ask (env : Env) (body : ReqBody) (fuel : Nat) : Option (HttpResp × List Event) :=
  match getQuestion body with
  | .error e => some (.uncaught e, [])
  | .ok question =>
    if question == "" then
      some (.resp 400 [("error", .jstr "No question provided.")], [])
    else
      let tid := usedThreadId env body
      let t0 : List Event := if truthyOpt body.thread_id then [] else [.createThread]
      let t1 := t0 ++ [.appendMessage tid "user" question, .createRun tid env.assistantId]
      match poll env env.createRunStatus 0 fuel with
      | none => none
      | some (st, n) =>
        let t2 := t1 ++ (List.range n).map (fun _ => Event.getRun tid env.runId)
        if st == "completed" then
          let t3 := t2 ++ [.listMessages tid]
          match extractAnswer env.messages with
          | .error e => some (.uncaught e, t3)
          | .ok answer =>
            some (.resp 200 [("answer", .jstr answer), ("thread_id", tid)], t3)
        else
          let t3 := t2 ++ [.analyticsCapture env.clientHost "shadowclone_question"]
          let failResp := HttpResp.resp 500
            [("error", .jstr ("Run failed with status: " ++ st)), ("thread_id", tid)]
          match tryCapture env with
          | .ok _ => some (failResp, t3)
          | .error _ => some (failResp, t3)

/-- Number of `createRun` calls in a trace. -/
def countCreateRun (tr : List Event) : Nat :=
  tr.countP (fun e => match e with | .createRun _ _ => true | _ => false)

/-- Number of `getRun` (run retrieval) calls in a trace. -/
def countGetRun (tr : List Event) : Nat :=
  tr.countP (fun e => match e with | .getRun _ _ => true | _ => false)

/-- Number of analytics capture attempts in a trace. -/
def countCapture (tr : List Event) : Nat :=
  tr.countP (fun e => match e with | .analyticsCapture _ _ => true | _ => false)

/-- Number of calls in a trace whose response carries the run status: the run
creation plus every run retrieval. -/
def statusFetches (tr : List Event) : Nat :=
  countCreateRun tr + countGetRun tr

/-- The text of the most recent assistant message, given a message list in
most-recent-first order: the first message with role `assistant`, first
content part. -/
def mostRecentAssistantText (msgs : List Message) : Option String :=
  match msgs.find? (fun m => m.role == "assistant") with
  | none => none
  | some m => m.content.head?

/-- The trace produced by an accepted request (non-blank question) whose
polling loop exits with status `st` after `n` retrieve calls: optional
thread creation, the message append, the run creation, the `n` retrievals,
then either the message listing (on `completed`) or the analytics capture
attempt. Proved equal to the trace `ask` returns (`ask_eq_accepted`). -/
def acceptedTrace (env : Env) (body : ReqBody) (q st : String) (n : Nat) : List Event :=
  (if truthyOpt body.thread_id then [] else [Event.createThread]) ++
  [Event.appendMessage (usedThreadId env body) "user" q,
   Event.createRun (usedThreadId env body) env.assistantId] ++
  (List.range n).map (fun _ => Event.getRun (usedThreadId env body) env.runId) ++
  (if st == "completed" then [Event.listMessages (usedThreadId env body)]
   else [Event.analyticsCapture env.clientHost "shadowclone_question"])

/-- The response produced by an accepted request whose polling loop exits
with status `st`. Proved equal to the response `ask` returns
(`ask_eq_accepted`). -/
def acceptedResp (env : Env) (body : ReqBody) (st : String) : HttpResp :=
  if st == "completed" then
    match extractAnswer env.messages with
    | .error e => .uncaught e
    | .ok answer => .resp 200 [("answer", .jstr answer), ("thread_id", usedThreadId env body)]
  else
    .resp 500 [("error", .jstr ("Run failed with status: " ++ st)),
               ("thread_id", usedThreadId env body)]

/-- Modelled from the spec: the sliding-window accounting of the slowapi
rate limiter behind `@limiter.limit("10/minute;60/hour")` (line 91), whose
implementation is an external library and not part of this repository. The
spec asks that, per client identity, no more than `max_count` events be
admitted within any `duration`-length interval, for each configured window.
`log` is the list of timestamps (seconds) of previously admitted requests
for one client identity; `recentCount log now dur` counts those in the
trailing window of length `dur` ending at `now`. -/
def recentCount (log : List Nat) (now dur : Nat) : Nat :=
  log.countP (fun t => decide (now < t + dur))

/-- Modelled from the spec: admission per client identity requires remaining
quota in both configured windows, 10 per rolling minute and 60 per rolling
hour. -/
def rlAdmit (log : List Nat) (now : Nat) : Bool :=
  decide (recentCount log now 60 < 10) && decide (recentCount log now 3600 < 60)

/-- Modelled from the spec: on admission the request's timestamp is recorded
against both windows; a denied request leaves the state unchanged (no
partial side effects). -/
def rlStep (log : List Nat) (now : Nat) : List Nat :=
  if rlAdmit log now then now :: log else log

/-- Modelled from the spec: the admitted-timestamp log after processing a
sequence of request timestamps from one client identity, starting empty. -/
def rlRun (times : List Nat) : List Nat :=
  times.foldl rlStep []

/-- Number of timestamps in `log` lying in the interval of length `dur`
directly after `a` (that is, in `(a, a + dur]`). -/
def windowCount (log : List Nat) (a dur : Nat) : Nat :=
  log.countP (fun t => decide (a < t) && decide (t ≤ a + dur))

/-- The rate-limited `/ask` endpoint: the decorator of line 91 runs the
admission check before the handler body; a denied request is answered by
`custom_rate_limit_handler` (lines 39-46) with 429 and reaches neither the
handler body nor the upstream client (empty trace). Returns the outcome
paired with the updated admitted-timestamp log for this client identity. -/
def askRL (log : List Nat) (now : Nat) (env : Env) (body : ReqBody) (fuel : Nat) :
    Option (HttpResp × List Event) × List Nat :=
  if rlAdmit log now then (ask env body fuel, now :: log)
  else (some (.resp 429 [("error", .jstr rateLimitMsg)], []), log)

/-- A concrete test double: run creation reports `queued`, the retrievals
report `queued` then `completed`, and the message list holds one assistant
message. -/
def envDemo : Env :=
  { newThreadId := "thread_new", runId := "run_1", assistantId := "asst_1",
    clientHost := "127.0.0.1", createRunStatus := "queued",
    getRunStatus := fun k => if k = 0 then "queued" else "completed",
    messages := [{ role := "assistant", content := ["Hello!"] }],
    captureRaises := false }

/-- A concrete request body supplying a non-empty thread id. -/
def bodyWithTid : ReqBody :=
  { question := some (.jstr " hi "), thread_id := some (.jstr "t_1") }

/-- A concrete request body supplying the empty string as thread id. -/
def bodyEmptyTid : ReqBody :=
  { question := some (.jstr "hi"), thread_id := some (.jstr "") }

/-- The observed status sequence starts with the run-creation status. -/
theorem statusSeq_zero (env : Env) : statusSeq env 0 = env.createRunStatus := rfl

/-- Soundness of the polling loop: when it exits with status `st` after the
n-th observation, `st` is the n-th observed status, it is terminal, and
every observation strictly before it (from the k-th on) was non-terminal. -/
theorem poll_sound (env : Env) :
    ∀ fuel k st n, poll env (statusSeq env k) k fuel = some (st, n) →
      k ≤ n ∧ st = statusSeq env n ∧ nonTerminal st = false ∧
        ∀ j, k ≤ j → j < n → nonTerminal (statusSeq env j) = true := by
  intro fuel
  induction fuel with
  | zero =>
    intro k st n h
    by_cases hnt : nonTerminal (statusSeq env k) = true
    · simp [poll, hnt] at h
    · simp [poll, hnt] at h
      obtain ⟨hst, hn⟩ := h
      subst hn
      refine ⟨le_rfl, hst.symm, ?_, fun j hj1 hj2 => absurd (lt_of_le_of_lt hj1 hj2) (lt_irrefl k)⟩
      subst hst
      exact Bool.eq_false_iff.mpr hnt
  | succ f ih =>
    intro k st n h
    by_cases hnt : nonTerminal (statusSeq env k) = true
    · simp only [poll, hnt, if_true] at h
      have h' : poll env (statusSeq env (k + 1)) (k + 1) f = some (st, n) := h
      obtain ⟨hle, hst, hterm, hrange⟩ := ih (k + 1) st n h'
      refine ⟨by omega, hst, hterm, fun j hj1 hj2 => ?_⟩
      rcases Nat.eq_or_lt_of_le hj1 with hj | hj
      · subst hj; exact hnt
      · exact hrange j hj hj2
    · simp [poll, hnt] at h
      obtain ⟨hst, hn⟩ := h
      subst hn
      refine ⟨le_rfl, hst.symm, ?_, fun j hj1 hj2 => absurd (lt_of_le_of_lt hj1 hj2) (lt_irrefl k)⟩
      subst hst
      exact Bool.eq_false_iff.mpr hnt

/-- Completeness of the polling loop: if the n-th observed status is the
first terminal one (from the k-th on), the loop started at the k-th
observation exits there, given fuel for the remaining iterations. -/
theorem poll_complete (env : Env) :
    ∀ fuel k n, k ≤ n → n ≤ k + fuel →
      (∀ j, k ≤ j → j < n → nonTerminal (statusSeq env j) = true) →
      nonTerminal (statusSeq env n) = false →
      poll env (statusSeq env k) k fuel = some (statusSeq env n, n) := by
  intro fuel
  induction fuel with
  | zero =>
    intro k n hkn hnk _ hterm
    have hkn' : n = k := by omega
    subst hkn'
    simp [poll, hterm]
  | succ f ih =>
    intro k n hkn hnk hrange hterm
    by_cases hk : k = n
    · subst hk
      simp [poll, hterm]
    · have hklt : k < n := lt_of_le_of_ne hkn hk
      have hcur : nonTerminal (statusSeq env k) = true := hrange k le_rfl hklt
      simp only [poll, hcur, if_true]
      exact ih (k + 1) n hklt (by omega) (fun j hj1 hj2 => hrange j (by omega) hj2) hterm

/-- Shape of an accepted request's outcome: with a non-blank question and a
terminating polling loop, `ask` returns exactly the response and trace
described by `acceptedResp` and `acceptedTrace`. -/
theorem ask_eq_accepted (env : Env) (body : ReqBody) (fuel : Nat) (q st : String) (n : Nat)
    (hq : getQuestion body = .ok q) (hne : q ≠ "")
    (hp : poll env env.createRunStatus 0 fuel = some (st, n)) :
    ask env body fuel = some (acceptedResp env body st, acceptedTrace env body q st n) := by
  have hq' : (q == "") = false := by simp [hne]
  unfold ask acceptedResp acceptedTrace
  rw [hq]
  simp only [hq', Bool.false_eq_true, if_false, hp]
  by_cases hc : (st == "completed") = true
  · simp only [hc, if_true]
    cases hex : extractAnswer env.messages with
    | error e => simp [List.append_assoc]
    | ok answer => simp [List.append_assoc]
  · have hc' : (st == "completed") = false := by simpa using hc
    simp only [hc', Bool.false_eq_true, if_false]
    cases hcap : tryCapture env with
    | error e => simp [List.append_assoc]
    | ok u => simp [List.append_assoc]

/-- Counting a constant list built from `List.range`. -/
theorem countP_map_range_const (p : Event → Bool) (e : Event) (n : Nat) :
    ((List.range n).map (fun _ => e)).countP p = if p e then n else 0 := by
  induction n with
  | zero => simp
  | succ m ih =>
    rw [List.range_succ, List.map_append, List.countP_append, ih]
    by_cases hp : p e = true <;> simp [hp, List.countP_cons]

/-- The accepted trace contains exactly one run creation. -/
theorem countCreateRun_acceptedTrace (env : Env) (body : ReqBody) (q st : String) (n : Nat) :
    countCreateRun (acceptedTrace env body q st n) = 1 := by
  unfold countCreateRun acceptedTrace
  rw [List.countP_append, List.countP_append, List.countP_append]
  rw [countP_map_range_const]
  by_cases h1 : truthyOpt body.thread_id = true <;>
    by_cases h2 : (st == "completed") = true <;>
      simp [h1, h2, List.countP_cons]

/-- The accepted trace contains exactly `n` run retrievals. -/
theorem countGetRun_acceptedTrace (env : Env) (body : ReqBody) (q st : String) (n : Nat) :
    countGetRun (acceptedTrace env body q st n) = n := by
  unfold countGetRun acceptedTrace
  rw [List.countP_append, List.countP_append, List.countP_append]
  rw [countP_map_range_const]
  by_cases h1 : truthyOpt body.thread_id = true <;>
    by_cases h2 : (st == "completed") = true <;>
      simp [h1, h2, List.countP_cons]

/-- The accepted trace contains exactly one capture attempt when the run did
not complete, and none otherwise. -/
theorem countCapture_acceptedTrace (env : Env) (body : ReqBody) (q st : String) (n : Nat) :
    countCapture (acceptedTrace env body q st n) =
      if st == "completed" then 0 else 1 := by
  unfold countCapture acceptedTrace
  rw [List.countP_append, List.countP_append, List.countP_append]
  rw [countP_map_range_const]
  by_cases h1 : truthyOpt body.thread_id = true <;>
    by_cases h2 : (st == "completed") = true <;>
      simp [h1, h2, List.countP_cons]

/-- Every 200 response of an accepted request carries the used thread id
under the "thread_id" key. -/
theorem acceptedResp_200_body (env : Env) (body : ReqBody) (st : String)
    (b : List (String × JVal)) (hb : acceptedResp env body st = .resp 200 b) :
    ("thread_id", usedThreadId env body) ∈ b := by
  unfold acceptedResp at hb
  split at hb
  · split at hb
    · exact absurd hb (by simp)
    · obtain ⟨-, hbody⟩ := (HttpResp.resp.injEq _ _ _ _).mp hb
      rw [← hbody]
      simp
  · obtain ⟨hs, -⟩ := (HttpResp.resp.injEq _ _ _ _).mp hb
    omega

/-- Polling does not depend on the analytics flag of the environment. -/
theorem poll_captureRaises (env : Env) (b : Bool) :
    ∀ fuel st k, poll { env with captureRaises := b } st k fuel = poll env st k fuel := by
  intro fuel
  induction fuel with
  | zero => intro st k; rfl
  | succ f ih =>
    intro st k
    by_cases h : nonTerminal st = true
    · simp only [poll, h, if_true]
      exact ih _ _
    · simp [poll, h]

/-- C1: a request whose question is missing, empty, or whitespace-only is
answered 400 with body mapping "error" to "No question provided.", and the
trace is empty: no thread creation, message append, run creation, run fetch
or message list call is made. -/
theorem ask_blankQuestion_400_noCalls (env : Env) (body : ReqBody) (fuel : Nat)
    (h : body.question = none ∨ ∃ s, body.question = some (.jstr s) ∧ pyStrip s = "") :
    ask env body fuel = some (.resp 400 [("error", .jstr "No question provided.")], []) := by
  have hq : getQuestion body = .ok "" := by
    rcases h with h | ⟨s, hs, hst⟩
    · simp [getQuestion, h]
    · simp [getQuestion, hs, hst]
  unfold ask
  rw [hq]
  rfl

/-- Witness for C1 at a concrete whitespace-only question. -/
theorem ask_blankQuestion_400_noCalls_witness :
    ask envDemo { question := some (.jstr "   "), thread_id := none } 3 =
      some (.resp 400 [("error", .jstr "No question provided.")], []) :=
  ask_blankQuestion_400_noCalls envDemo _ 3 (Or.inr ⟨"   ", rfl, by decide⟩)

/-- C2: an accepted request (non-blank question) whose polling loop exits
makes exactly one `createRun` call in its whole trace; the polling loop only
issues `getRun` retrievals and never creates a second run. -/
theorem ask_accepted_singleRunCreated (env : Env) (body : ReqBody) (fuel : Nat)
    (q st : String) (n : Nat)
    (hq : getQuestion body = .ok q) (hne : q ≠ "")
    (hp : poll env env.createRunStatus 0 fuel = some (st, n)) :
    ∃ r tr, ask env body fuel = some (r, tr) ∧ countCreateRun tr = 1 :=
  ⟨acceptedResp env body st, acceptedTrace env body q st n,
    ask_eq_accepted env body fuel q st n hq hne hp,
    countCreateRun_acceptedTrace env body q st n⟩

/-- Witness for C2 at a concrete request and test double. -/
theorem ask_accepted_singleRunCreated_witness :
    ∃ r tr, ask envDemo bodyWithTid 5 = some (r, tr) ∧ countCreateRun tr = 1 :=
  ask_accepted_singleRunCreated envDemo bodyWithTid 5 "hi" "completed" 2
    rfl (by decide) rfl

/-- C10: a request body whose "question" key holds a non-string value (here
JSON null) is not answered with the 400 InvalidInput response: the `.strip()`
call raises an uncaught `AttributeError` before any validation, upstream
call, or response construction. -/
theorem ask_nonStringQuestion_uncaughtAttributeError :
    ask envDemo { question := some .jnull, thread_id := none } 1 =
      some (.uncaught .attributeError, []) := rfl

/-- C3: when a non-empty thread id is supplied, no `createThread` call is
made, the supplied id is the one passed to the message append and the run
creation, and a success (200) response echoes the supplied id as
"thread_id". -/
theorem ask_suppliedThread_reusedAndEchoed (env : Env) (body : ReqBody) (fuel : Nat)
    (q st t : String) (n : Nat)
    (ht : body.thread_id = some (.jstr t)) (htne : t ≠ "")
    (hq : getQuestion body = .ok q) (hne : q ≠ "")
    (hp : poll env env.createRunStatus 0 fuel = some (st, n)) :
    ∃ r tr, ask env body fuel = some (r, tr) ∧
      Event.createThread ∉ tr ∧
      Event.appendMessage (.jstr t) "user" q ∈ tr ∧
      Event.createRun (.jstr t) env.assistantId ∈ tr ∧
      ∀ b, r = .resp 200 b → ("thread_id", JVal.jstr t) ∈ b := by
  have htr : truthyOpt body.thread_id = true := by
    simp [truthyOpt, ht, JVal.truthy, htne]
  have hused : usedThreadId env body = .jstr t := by
    unfold usedThreadId
    rw [htr, ht]
    simp
  refine ⟨acceptedResp env body st, acceptedTrace env body q st n,
    ask_eq_accepted env body fuel q st n hq hne hp, ?_, ?_, ?_, ?_⟩
  · by_cases hc : (st == "completed") = true <;> simp [acceptedTrace, htr, hc]
  · simp [acceptedTrace, hused]
  · simp [acceptedTrace, hused]
  · intro b hb
    have := acceptedResp_200_body env body st b hb
    rwa [hused] at this

/-- Witness for C3 at a concrete request supplying thread id "t_1". -/
theorem ask_suppliedThread_reusedAndEchoed_witness :
    ∃ r tr, ask envDemo bodyWithTid 5 = some (r, tr) ∧
      Event.createThread ∉ tr ∧
      Event.appendMessage (.jstr "t_1") "user" "hi" ∈ tr ∧
      Event.createRun (.jstr "t_1") envDemo.assistantId ∈ tr ∧
      ∀ b, r = .resp 200 b → ("thread_id", JVal.jstr "t_1") ∈ b :=
  ask_suppliedThread_reusedAndEchoed envDemo bodyWithTid 5 "hi" "completed" "t_1" 2
    rfl (by decide) rfl (by decide) rfl

/-- C9: when the supplied thread id is falsy (empty string, null, missing,
zero or false), a new thread is created, and the freshly created id — not
the supplied value — is the one passed to the message append and the run
creation and echoed in a success (200) response. -/
theorem ask_falsyThread_createsNew (env : Env) (body : ReqBody) (fuel : Nat)
    (q st : String) (n : Nat)
    (ht : truthyOpt body.thread_id = false)
    (hq : getQuestion body = .ok q) (hne : q ≠ "")
    (hp : poll env env.createRunStatus 0 fuel = some (st, n)) :
    ∃ r tr, ask env body fuel = some (r, tr) ∧
      Event.createThread ∈ tr ∧
      Event.appendMessage (.jstr env.newThreadId) "user" q ∈ tr ∧
      Event.createRun (.jstr env.newThreadId) env.assistantId ∈ tr ∧
      ∀ b, r = .resp 200 b → ("thread_id", JVal.jstr env.newThreadId) ∈ b := by
  have hused : usedThreadId env body = .jstr env.newThreadId := by
    unfold usedThreadId
    rw [ht]
    simp
  refine ⟨acceptedResp env body st, acceptedTrace env body q st n,
    ask_eq_accepted env body fuel q st n hq hne hp, ?_, ?_, ?_, ?_⟩
  · simp [acceptedTrace, ht]
  · simp [acceptedTrace, hused]
  · simp [acceptedTrace, hused]
  · intro b hb
    have := acceptedResp_200_body env body st b hb
    rwa [hused] at this

/-- Witness for C9 at a concrete request supplying the empty string as
thread id. -/
theorem ask_falsyThread_createsNew_witness :
    ∃ r tr, ask envDemo bodyEmptyTid 5 = some (r, tr) ∧
      Event.createThread ∈ tr ∧
      Event.appendMessage (.jstr envDemo.newThreadId) "user" "hi" ∈ tr ∧
      Event.createRun (.jstr envDemo.newThreadId) envDemo.assistantId ∈ tr ∧
      ∀ b, r = .resp 200 b → ("thread_id", JVal.jstr envDemo.newThreadId) ∈ b :=
  ask_falsyThread_createsNew envDemo bodyEmptyTid 5 "hi" "completed" 2
    rfl rfl (by decide) rfl

/-- C4: when the polling loop exits with status "completed" and the message
list's most recent entry is an assistant message with at least one content
part, the response is 200 with the most recent assistant message's text as
"answer" and the used (supplied or newly created) thread id as "thread_id". -/
theorem ask_completedRun_answersMostRecentAssistant (env : Env) (body : ReqBody)
    (fuel n : Nat) (q : String) (m : Message) (ms : List Message)
    (c : String) (cs : List String)
    (hq : getQuestion body = .ok q) (hne : q ≠ "")
    (hp : poll env env.createRunStatus 0 fuel = some ("completed", n))
    (hm : env.messages = m :: ms) (hrole : m.role = "assistant")
    (hc : m.content = c :: cs) :
    ∃ tr, ask env body fuel =
        some (.resp 200 [("answer", .jstr c), ("thread_id", usedThreadId env body)], tr) ∧
      mostRecentAssistantText env.messages = some c := by
  have hex : extractAnswer env.messages = .ok c := by
    simp [extractAnswer, hm, hc]
  refine ⟨acceptedTrace env body q "completed" n, ?_, ?_⟩
  · rw [ask_eq_accepted env body fuel q "completed" n hq hne hp]
    unfold acceptedResp
    rw [hex]
    simp
  · unfold mostRecentAssistantText
    rw [hm, List.find?_cons_of_pos _ (by simp [hrole])]
    simp [hc]

/-- Witness for C4 at a concrete completed run with one assistant message. -/
theorem ask_completedRun_answersMostRecentAssistant_witness :
    ∃ tr, ask envDemo bodyWithTid 5 =
        some (.resp 200 [("answer", .jstr "Hello!"),
                         ("thread_id", usedThreadId envDemo bodyWithTid)], tr) ∧
      mostRecentAssistantText envDemo.messages = some "Hello!" :=
  ask_completedRun_answersMostRecentAssistant envDemo bodyWithTid 5 2 "hi"
    { role := "assistant", content := ["Hello!"] } [] "Hello!" []
    rfl (by decide) rfl rfl rfl rfl

/-- C5: when the polling loop exits with a terminal status other than
"completed", the response is 500 with body mapping "error" to
"Run failed with status: <status>" and "thread_id" to the used thread id;
the trace contains exactly one analytics capture attempt, and a failure
inside the capture leaves the handler's outcome unchanged. -/
theorem ask_failedRun_500_captureOnce (env : Env) (body : ReqBody) (fuel : Nat)
    (q st : String) (n : Nat)
    (hq : getQuestion body = .ok q) (hne : q ≠ "")
    (hp : poll env env.createRunStatus 0 fuel = some (st, n))
    (hst : st ≠ "completed") :
    ∃ tr, ask env body fuel =
        some (.resp 500 [("error", .jstr ("Run failed with status: " ++ st)),
                         ("thread_id", usedThreadId env body)], tr) ∧
      countCapture tr = 1 ∧
      ∀ b : Bool, ask { env with captureRaises := b } body fuel = ask env body fuel := by
  have hcf : (st == "completed") = false := by simp [hst]
  refine ⟨acceptedTrace env body q st n, ?_, ?_, ?_⟩
  · rw [ask_eq_accepted env body fuel q st n hq hne hp]
    unfold acceptedResp
    rw [hcf]
    simp
  · rw [countCapture_acceptedTrace, hcf]
    rfl
  · intro b
    have hp' : poll { env with captureRaises := b }
        ({ env with captureRaises := b } : Env).createRunStatus 0 fuel = some (st, n) := by
      rw [show ({ env with captureRaises := b } : Env).createRunStatus = env.createRunStatus
            from rfl,
          poll_captureRaises]
      exact hp
    rw [ask_eq_accepted { env with captureRaises := b } body fuel q st n hq hne hp',
        ask_eq_accepted env body fuel q st n hq hne hp]
    rfl

/-- Witness for C5 at a concrete run whose creation already reports status
"failed". -/
theorem ask_failedRun_500_captureOnce_witness :
    ∃ tr, ask { envDemo with createRunStatus := "failed" } bodyWithTid 5 =
        some (.resp 500 [("error", .jstr ("Run failed with status: " ++ "failed")),
                         ("thread_id",
                          usedThreadId { envDemo with createRunStatus := "failed" } bodyWithTid)],
              tr) ∧
      countCapture tr = 1 ∧
      ∀ b : Bool, ask { { envDemo with createRunStatus := "failed" } with captureRaises := b }
          bodyWithTid 5 =
        ask { envDemo with createRunStatus := "failed" } bodyWithTid 5 :=
  ask_failedRun_500_captureOnce { envDemo with createRunStatus := "failed" } bodyWithTid 5
    "hi" "failed" 0 rfl (by decide) rfl (by decide)

/-- C6: when the observed status sequence is queued (from run creation),
queued, completed (from the two retrievals), the handler issues exactly 3
status fetches — the run creation plus two retrievals — before listing the
messages and returning the answer. -/
theorem ask_queuedQueuedCompleted_threeStatusFetches (env : Env) (body : ReqBody)
    (fuel : Nat) (q : String) (m : Message) (ms : List Message)
    (c : String) (cs : List String)
    (h0 : env.createRunStatus = "queued")
    (h1 : env.getRunStatus 0 = "queued")
    (h2 : env.getRunStatus 1 = "completed")
    (hq : getQuestion body = .ok q) (hne : q ≠ "")
    (hfuel : 2 ≤ fuel)
    (hm : env.messages = m :: ms) (hc : m.content = c :: cs) :
    ∃ tr, ask env body fuel =
        some (.resp 200 [("answer", .jstr c), ("thread_id", usedThreadId env body)], tr) ∧
      statusFetches tr = 3 ∧ Event.listMessages (usedThreadId env body) ∈ tr := by
  have hs0 : statusSeq env 0 = "queued" := by
    rw [show statusSeq env 0 = env.createRunStatus from rfl, h0]
  have hs1 : statusSeq env 1 = "queued" := by
    rw [show statusSeq env 1 = env.getRunStatus 0 from rfl, h1]
  have hs2 : statusSeq env 2 = "completed" := by
    rw [show statusSeq env 2 = env.getRunStatus 1 from rfl, h2]
  have hp : poll env env.createRunStatus 0 fuel = some ("completed", 2) := by
    have h := poll_complete env fuel 0 2 (by omega) (by omega)
      (fun j hj1 hj2 => by
        interval_cases j
        · rw [hs0]; rfl
        · rw [hs1]; rfl)
      (by rw [hs2]; rfl)
    rw [hs2] at h
    exact h
  have hex : extractAnswer env.messages = .ok c := by
    simp [extractAnswer, hm, hc]
  refine ⟨acceptedTrace env body q "completed" 2, ?_, ?_, ?_⟩
  · rw [ask_eq_accepted env body fuel q "completed" 2 hq hne hp]
    unfold acceptedResp
    rw [hex]
    simp
  · unfold statusFetches
    rw [countCreateRun_acceptedTrace, countGetRun_acceptedTrace]
  · simp [acceptedTrace]

/-- Witness for C6 at a concrete double returning queued, queued, completed. -/
theorem ask_queuedQueuedCompleted_threeStatusFetches_witness :
    ∃ tr, ask envDemo bodyWithTid 5 =
        some (.resp 200 [("answer", .jstr "Hello!"),
                         ("thread_id", usedThreadId envDemo bodyWithTid)], tr) ∧
      statusFetches tr = 3 ∧ Event.listMessages (usedThreadId envDemo bodyWithTid) ∈ tr :=
  ask_queuedQueuedCompleted_threeStatusFetches envDemo bodyWithTid 5 "hi"
    { role := "assistant", content := ["Hello!"] } [] "Hello!" []
    rfl rfl rfl rfl (by decide) (by omega) rfl rfl

/-- C7: the polling loop runs exactly while the observed status is in the
non-terminal set: it exits for some fuel bound if and only if some observed
status (run creation or a retrieval) lies outside that set, and on exit the
returned status is the first terminal one — every earlier observation was
non-terminal — which then selects the terminal branch. -/
theorem ask_pollingLoop_terminationCharacterization (env : Env) :
    ((∃ fuel r, poll env env.createRunStatus 0 fuel = some r) ↔
      ∃ n, nonTerminal (statusSeq env n) = false) ∧
    (∀ fuel st n, poll env env.createRunStatus 0 fuel = some (st, n) →
      st = statusSeq env n ∧ nonTerminal st = false ∧
        ∀ j, j < n → nonTerminal (statusSeq env j) = true) := by
  constructor
  · constructor
    · rintro ⟨fuel, ⟨st, n⟩, h⟩
      have h' : poll env (statusSeq env 0) 0 fuel = some (st, n) := h
      obtain ⟨-, hst, hterm, -⟩ := poll_sound env fuel 0 st n h'
      exact ⟨n, hst ▸ hterm⟩
    · rintro ⟨n, hn⟩
      have hex : ∃ k, nonTerminal (statusSeq env k) = false := ⟨n, hn⟩
      refine ⟨Nat.find hex, (statusSeq env (Nat.find hex), Nat.find hex), ?_⟩
      exact poll_complete env (Nat.find hex) 0 (Nat.find hex) (Nat.zero_le _) (by omega)
        (fun j hj1 hj2 => by
          cases hb : nonTerminal (statusSeq env j) with
          | true => rfl
          | false => exact absurd hb (Nat.find_min hex hj2))
        (Nat.find_spec hex)
  · intro fuel st n h
    have h' : poll env (statusSeq env 0) 0 fuel = some (st, n) := h
    obtain ⟨-, hst, hterm, hrange⟩ := poll_sound env fuel 0 st n h'
    exact ⟨hst, hterm, fun j hj => hrange j (Nat.zero_le j) hj⟩

/-- Witness for C7: a double whose status sequence reaches "completed" has a
terminating polling loop. -/
theorem ask_pollingLoop_terminationCharacterization_witness :
    ∃ n, nonTerminal (statusSeq envDemo n) = false :=
  (ask_pollingLoop_terminationCharacterization envDemo).1.mp ⟨5, ("completed", 2), rfl⟩

/-- Adding one admitted timestamp changes a window count by its membership. -/
theorem windowCount_cons (log : List Nat) (now a dur : Nat) :
    windowCount (now :: log) a dur =
      windowCount log a dur + (if a < now ∧ now ≤ a + dur then 1 else 0) := by
  unfold windowCount
  rw [List.countP_cons]
  congr 1
  by_cases h : a < now ∧ now ≤ a + dur
  · simp [h]
  · simp [h]

/-- A window count is bounded by the admission check's trailing count
whenever the admitted timestamp itself lies in the window. -/
theorem windowCount_le_recentCount (log : List Nat) (now a dur : Nat)
    (h : now ≤ a + dur) : windowCount log a dur ≤ recentCount log now dur := by
  unfold windowCount recentCount
  apply List.countP_mono_left
  intro t ht hpt
  simp only [Bool.and_eq_true, decide_eq_true_eq] at hpt
  simp only [decide_eq_true_eq]
  omega

/-- One admission step preserves a window bound, provided the admission
check saw remaining quota in that window. -/
theorem windowCount_step_le (log : List Nat) (now a dur cap : Nat)
    (hadm : recentCount log now dur < cap)
    (hw : windowCount log a dur ≤ cap) :
    windowCount (now :: log) a dur ≤ cap := by
  rw [windowCount_cons]
  by_cases h : a < now ∧ now ≤ a + dur
  · have hsub := windowCount_le_recentCount log now a dur h.2
    rw [if_pos h]
    omega
  · rw [if_neg h]
    omega

/-- One rate-limiter step preserves both configured window bounds. -/
theorem rlStep_windows (log : List Nat) (now : Nat)
    (h60 : ∀ a, windowCount log a 60 ≤ 10)
    (h3600 : ∀ a, windowCount log a 3600 ≤ 60) :
    (∀ a, windowCount (rlStep log now) a 60 ≤ 10) ∧
      (∀ a, windowCount (rlStep log now) a 3600 ≤ 60) := by
  unfold rlStep
  by_cases hadm : rlAdmit log now = true
  · have hq : recentCount log now 60 < 10 ∧ recentCount log now 3600 < 60 := by
      have h := hadm
      unfold rlAdmit at h
      simpa using h
    rw [hadm, if_pos rfl]
    exact ⟨fun a => windowCount_step_le log now a 60 10 hq.1 (h60 a),
      fun a => windowCount_step_le log now a 3600 60 hq.2 (h3600 a)⟩
  · have h : rlAdmit log now = false := by simpa using hadm
    rw [h]
    simpa using ⟨h60, h3600⟩

/-- Processing any request sequence preserves both window bounds. -/
theorem rlFoldl_windows (times : List Nat) : ∀ log,
    (∀ a, windowCount log a 60 ≤ 10) → (∀ a, windowCount log a 3600 ≤ 60) →
    (∀ a, windowCount (times.foldl rlStep log) a 60 ≤ 10) ∧
      (∀ a, windowCount (times.foldl rlStep log) a 3600 ≤ 60) := by
  induction times with
  | nil => intro log h1 h2; exact ⟨h1, h2⟩
  | cons t ts ih =>
    intro log h1 h2
    rw [List.foldl_cons]
    obtain ⟨i1, i2⟩ := rlStep_windows log t h1 h2
    exact ih _ i1 i2

/-- C8: per client identity, at most 10 requests are admitted within any
60-second interval and at most 60 within any 60-minute interval, whatever
the request sequence; a request arriving when the trailing minute already
holds 10 admissions (for example the 11th within a rolling minute) is not
admitted, and every non-admitted request is answered 429 with an "error"
body, with an empty trace: it never reaches the handler body or the
upstream client. -/
theorem askRL_rateLimit_windows_and_denial :
    (∀ times a, windowCount (rlRun times) a 60 ≤ 10 ∧
      windowCount (rlRun times) a 3600 ≤ 60) ∧
    (∀ log now, 10 ≤ recentCount log now 60 → rlAdmit log now = false) ∧
    (∀ log now env body fuel, rlAdmit log now = false →
      askRL log now env body fuel =
        (some (.resp 429 [("error", .jstr rateLimitMsg)], []), log)) := by
  refine ⟨?_, ?_, ?_⟩
  · intro times a
    have h := rlFoldl_windows times []
      (fun a => by simp [windowCount]) (fun a => by simp [windowCount])
    exact ⟨h.1 a, h.2 a⟩
  · intro log now h
    unfold rlAdmit
    have h' : ¬ recentCount log now 60 < 10 := by omega
    simp [h']
  · intro log now env body fuel h
    unfold askRL
    rw [h]
    simp

/-- Witness for C8: with ten admissions already in the trailing minute, the
next request is denied 429 and the log is unchanged. -/
theorem askRL_rateLimit_windows_and_denial_witness :
    askRL (List.replicate 10 5) 20 envDemo bodyWithTid 3 =
      (some (.resp 429 [("error", .jstr rateLimitMsg)], []), List.replicate 10 5) :=
  askRL_rateLimit_windows_and_denial.2.2 (List.replicate 10 5) 20 envDemo bodyWithTid 3
    (askRL_rateLimit_windows_and_denial.2.1 (List.replicate 10 5) 20 (by decide))

end Portfolio
